import Mathlib

set_option maxRecDepth 8000

/-!
Shallow embedding of the instruction-construction and signature subsystem of
the superdev-api service (src/src/main.rs).  Bytes are modelled as `Nat`
values below 256; byte strings as `List Nat`.  The Ed25519 primitives
(point validity, signing, verification) provided by the underlying crypto
library are modelled as explicit function parameters (`CryptoOps`); every
other step - base58 and base64 codecs, length checks, instruction layouts,
error selection and ordering - is embedded concretely from the source.
-/

/-! ## Base58 codec (bs58 crate semantics, Bitcoin alphabet) -/

def b58Chars : List Char := ("123456789ABCDEFGHJKLMNPQRSTUVWXYZabcdefghijkmnopqrstuvwxyz").data

def b58DigitOf (c : Char) : Option Nat := b58Chars.findIdx? (fun d => d == c)

/-- Minimal big-endian base-256 digits of `n` (empty for 0), via structural
fuel so that the kernel can evaluate it. -/
def natToBytesBEAux : Nat → Nat → List Nat
  | 0, _ => []
  | fuel + 1, n => if n = 0 then [] else natToBytesBEAux fuel (n / 256) ++ [n % 256]

def natToBytesBE (n : Nat) : List Nat := natToBytesBEAux n n

/-- bs58 decoding: every character must be in the alphabet; leading `1`
characters become leading zero bytes; the remaining value is written in
big-endian base 256. -/
def b58Decode (s : String) : Option (List Nat) :=
  match s.data.mapM b58DigitOf with
  | none => none
  | some digits =>
    let zeros := (digits.takeWhile (fun d => d = 0)).length
    let value := digits.foldl (fun a d => a * 58 + d) 0
    some (List.replicate zeros 0 ++ natToBytesBE value)

def natToB58Aux : Nat → Nat → List Char
  | 0, _ => []
  | fuel + 1, n => if n = 0 then [] else natToB58Aux fuel (n / 58) ++ [b58Chars.getD (n % 58) 'z']

/-- bs58 encoding: leading zero bytes become `1` characters, the remaining
value is written big-endian in base 58. -/
def b58Encode (bytes : List Nat) : String :=
  let zeros := (bytes.takeWhile (fun b => b = 0)).length
  let value := bytes.foldl (fun a b => a * 256 + b) 0
  ⟨List.replicate zeros '1' ++ natToB58Aux value value⟩

/-- `Pubkey::from_str`: length-capped base58 decode that must yield exactly
32 bytes. -/
def pubkeyFromStr (s : String) : Option (List Nat) :=
  if s.length > 44 then none
  else
    match b58Decode s with
    | none => none
    | some bs => if bs.length = 32 then some bs else none

/-! ## Base64 codec (base64 crate, STANDARD engine: canonical padding,
no trailing bits) -/

def b64Chars : List Char :=
  ("ABCDEFGHIJKLMNOPQRSTUVWXYZabcdefghijklmnopqrstuvwxyz0123456789+/").data

def b64Ch (i : Nat) : Char := b64Chars.getD i 'A'

def b64DigitOf (c : Char) : Option Nat := b64Chars.findIdx? (fun d => d == c)

def b64EncodeChunks : List Nat → List Char
  | [] => []
  | [a] => [b64Ch (a / 4), b64Ch (a % 4 * 16), '=', '=']
  | [a, b] => [b64Ch (a / 4), b64Ch (a % 4 * 16 + b / 16), b64Ch (b % 16 * 4), '=']
  | a :: b :: c :: rest =>
    b64Ch (a / 4) :: b64Ch (a % 4 * 16 + b / 16) :: b64Ch (b % 16 * 4 + c / 64) ::
      b64Ch (c % 64) :: b64EncodeChunks rest

def b64Encode (bytes : List Nat) : String := ⟨b64EncodeChunks bytes⟩

def b64DecodeChunks : List Char → Option (List Nat)
  | [] => some []
  | c1 :: c2 :: c3 :: c4 :: rest =>
    match b64DigitOf c1, b64DigitOf c2 with
    | some s1, some s2 =>
      if c3 = '=' then
        if c4 = '=' ∧ rest = [] ∧ s2 % 16 = 0 then some [s1 * 4 + s2 / 16] else none
      else
        match b64DigitOf c3 with
        | some s3 =>
          if c4 = '=' then
            if rest = [] ∧ s3 % 4 = 0 then
              some [s1 * 4 + s2 / 16, s2 % 16 * 16 + s3 / 4]
            else none
          else
            match b64DigitOf c4, b64DecodeChunks rest with
            | some s4, some tail =>
              some ((s1 * 4 + s2 / 16) :: (s2 % 16 * 16 + s3 / 4) :: (s3 % 4 * 64 + s4) :: tail)
            | _, _ => none
        | none => none
    | _, _ => none
  | _ => none

def b64DecodeStr (s : String) : Option (List Nat) := b64DecodeChunks s.data

/-- Little-endian 8-byte serialization of a u64 amount. -/
def u64LE (n : Nat) : List Nat :=
  [n % 256, n / 256 % 256, n / 65536 % 256, n / 16777216 % 256,
   n / 4294967296 % 256, n / 1099511627776 % 256,
   n / 281474976710656 % 256, n / 72057594037927936 % 256]

/-! ## Data model (solana-sdk `AccountMeta` / `Instruction`, the ApiError
enum, and request/response structs from src/src/main.rs) -/

structure AccountMeta where
  pubkey : List Nat
  is_signer : Bool
  is_writable : Bool
deriving DecidableEq, Repr

structure Instruction where
  program_id : List Nat
  accounts : List AccountMeta
  data : List Nat
deriving DecidableEq, Repr

inductive ApiError where
  | InvalidPubkey (s : String)
  | InvalidSecretKey (s : String)
  | InvalidSignature (s : String)
  | MissingField (s : String)
  | InvalidAmount
  | ProgramError (s : String)
deriving DecidableEq, Repr

instance {e a : Type} [DecidableEq e] [DecidableEq a] : DecidableEq (Except e a) :=
  fun x y =>
    match x, y with
    | .ok u, .ok v =>
      if h : u = v then isTrue (by rw [h]) else isFalse (by intro hh; cases hh; exact h rfl)
    | .error u, .error v =>
      if h : u = v then isTrue (by rw [h]) else isFalse (by intro hh; cases hh; exact h rfl)
    | .ok _, .error _ => isFalse (by intro hh; cases hh)
    | .error _, .ok _ => isFalse (by intro hh; cases hh)

structure KeypairResponse where
  pubkey : String
  secret : String
deriving DecidableEq, Repr

structure CreateTokenRequest where
  mint_authority : String
  mint : String
  decimals : Nat
deriving DecidableEq, Repr

structure AccountInfo where
  pubkey : String
  is_signer : Bool
  is_writable : Bool
deriving DecidableEq, Repr

structure InstructionResponse where
  program_id : String
  accounts : List AccountInfo
  instruction_data : String
deriving DecidableEq, Repr

structure MintTokenRequest where
  mint : String
  destination : String
  authority : String
  amount : Nat
deriving DecidableEq, Repr

structure SignMessageRequest where
  message : String
  secret : String
deriving DecidableEq, Repr

structure SignMessageResponse where
  signature : String
  public_key : String
  message : String
deriving DecidableEq, Repr

structure VerifyMessageRequest where
  message : String
  signature : String
  pubkey : String
deriving DecidableEq, Repr

structure VerifyMessageResponse where
  valid : Bool
  message : String
  pubkey : String
deriving DecidableEq, Repr

structure SendSolRequest where
  from_ : String
  to_ : String
  lamports : Nat
deriving DecidableEq, Repr

structure SendTokenRequest where
  destination : String
  mint : String
  owner : String
  amount : Nat
deriving DecidableEq, Repr

/-- The Ed25519 primitives supplied by the ed25519-dalek library, kept
abstract: whether 32 bytes decompress to a curve point (used by
`Keypair::from_bytes`), signing a message with a 64-byte keypair, and
verifying a signature against a 32-byte public key. -/
structure CryptoOps where
  validPoint : List Nat → Bool
  sign : List Nat → String → List Nat
  verify : List Nat → String → List Nat → Bool

/-! ## Program id constants and library instruction builders -/

/-- `spl_token::id()`: TokenkegQfeZyiNwAJbNbGKPFXCWuBvf9Ss623VQ5DA. -/
def splTokenId : List Nat :=
  (b58Decode ("TokenkegQfeZyiNwAJbNbGKPFXCWuBvf9Ss623VQ5DA")).getD []

/-- `sysvar::rent::id()`: SysvarRent111111111111111111111111111111111. -/
def rentSysvarId : List Nat :=
  (b58Decode ("SysvarRent111111111111111111111111111111111")).getD []

/-- `system_program::id()`: the all-zero pubkey. -/
def systemProgramId : List Nat := List.replicate 32 0

/-- `spl_token::instruction::initialize_mint` with freeze authority `None`:
accounts `[mint (writable), rent sysvar (readonly)]`, data
`tag 0, decimals, mint_authority, COption::None (one 0 byte)`. -/
def token_init_mint (pid mint mint_authority : List Nat) (decimals : Nat) :
    Except String Instruction :=
  if pid = splTokenId then
    .ok ⟨pid, [⟨mint, false, true⟩, ⟨rentSysvarId, false, false⟩],
         [0, decimals] ++ mint_authority ++ [0]⟩
  else .error ("incorrect program id for instruction")

/-- `spl_token::instruction::mint_to` with no multisig signers: accounts
`[mint (writable), destination (writable), authority (signer, readonly)]`,
data `tag 7 ++ amount as u64 LE`. -/
def token_mint_to (pid mint destination authority : List Nat) (amount : Nat) :
    Except String Instruction :=
  if pid = splTokenId then
    .ok ⟨pid, [⟨mint, false, true⟩, ⟨destination, false, true⟩, ⟨authority, true, false⟩],
         [7] ++ u64LE amount⟩
  else .error ("incorrect program id for instruction")

/-- `spl_token::instruction::transfer` with no multisig signers: accounts
`[source (writable), destination (writable), authority (signer, readonly)]`,
data `tag 3 ++ amount as u64 LE`. -/
def token_transfer_ix (pid source destination authority : List Nat) (amount : Nat) :
    Except String Instruction :=
  if pid = splTokenId then
    .ok ⟨pid, [⟨source, false, true⟩, ⟨destination, false, true⟩, ⟨authority, true, false⟩],
         [3] ++ u64LE amount⟩
  else .error ("incorrect program id for instruction")

/-- `system_instruction::transfer`: accounts
`[from (signer, writable), to (writable)]`, data = bincode of
`SystemInstruction::Transfer` = u32 LE tag 2 ++ lamports as u64 LE. -/
def system_transfer (fromKey toKey : List Nat) (lamports : Nat) : Instruction :=
  ⟨systemProgramId, [⟨fromKey, true, true⟩, ⟨toKey, false, true⟩],
   [2, 0, 0, 0] ++ u64LE lamports⟩

/-- `ed25519_dalek::Keypair::from_bytes`: exactly 64 bytes whose last 32
bytes decompress to a valid curve point (the public half). -/
def keypairFromBytes (validPoint : List Nat → Bool) (bs : List Nat) : Option (List Nat) :=
  if bs.length = 64 ∧ validPoint (bs.drop 32) then some bs else none

/-! ## Handlers (src/src/main.rs) -/

/-- Response projection shared by all instruction handlers: base58 for
pubkeys, base64 for the instruction data. -/
def toAccountInfo (m : AccountMeta) : AccountInfo :=
  ⟨b58Encode m.pubkey, m.is_signer, m.is_writable⟩

def toInstructionResponse (i : Instruction) : InstructionResponse :=
  ⟨b58Encode i.program_id, i.accounts.map toAccountInfo, b64Encode i.data⟩

/-- `generate_keypair`, as a function of the randomly drawn 64-byte dalek
keypair (secret seed ++ public key). -/
def generate_keypair (kp : List Nat) : KeypairResponse :=
  ⟨b58Encode (kp.drop 32), b58Encode kp⟩

def create_token_core (p : CreateTokenRequest) : Except ApiError Instruction :=
  match pubkeyFromStr p.mint_authority with
  | none => .error (.InvalidPubkey p.mint_authority)
  | some mint_authority =>
    match pubkeyFromStr p.mint with
    | none => .error (.InvalidPubkey p.mint)
    | some mint =>
      match token_init_mint splTokenId mint mint_authority p.decimals with
      | .error e => .error (.ProgramError e)
      | .ok i => .ok i

def create_token (p : CreateTokenRequest) : Except ApiError InstructionResponse :=
  (create_token_core p).map toInstructionResponse

def mint_token_core (p : MintTokenRequest) : Except ApiError Instruction :=
  match pubkeyFromStr p.mint with
  | none => .error (.InvalidPubkey p.mint)
  | some mint =>
    match pubkeyFromStr p.destination with
    | none => .error (.InvalidPubkey p.destination)
    | some destination =>
      match pubkeyFromStr p.authority with
      | none => .error (.InvalidPubkey p.authority)
      | some authority =>
        match token_mint_to splTokenId mint destination authority p.amount with
        | .error e => .error (.ProgramError e)
        | .ok i => .ok i

def mint_token (p : MintTokenRequest) : Except ApiError InstructionResponse :=
  (mint_token_core p).map toInstructionResponse

def sign_message (ops : CryptoOps) (p : SignMessageRequest) :
    Except ApiError SignMessageResponse :=
  if p.message = "" then .error (.MissingField ("message"))
  else if p.secret = "" then .error (.MissingField ("secret"))
  else
    match b58Decode p.secret with
    | none => .error (.InvalidSecretKey ("Invalid base58 encoding"))
    | some secret_bytes =>
      match keypairFromBytes ops.validPoint secret_bytes with
      | none => .error (.InvalidSecretKey ("Invalid keypair bytes"))
      | some kp =>
        .ok ⟨b64Encode (ops.sign kp p.message), b58Encode (kp.drop 32), p.message⟩

def verify_message (ops : CryptoOps) (p : VerifyMessageRequest) :
    Except ApiError VerifyMessageResponse :=
  if p.message = "" then .error (.MissingField ("message"))
  else if p.signature = "" then .error (.MissingField ("signature"))
  else if p.pubkey = "" then .error (.MissingField ("pubkey"))
  else
    match pubkeyFromStr p.pubkey with
    | none => .error (.InvalidPubkey p.pubkey)
    | some pk =>
      match b64DecodeStr p.signature with
      | none => .error (.InvalidSignature ("Invalid base64 encoding"))
      | some sig_bytes =>
        if sig_bytes.length = 64 then
          .ok ⟨ops.verify pk p.message sig_bytes, p.message, p.pubkey⟩
        else .error (.InvalidSignature ("Invalid signature bytes"))

def send_sol_core (p : SendSolRequest) : Except ApiError Instruction :=
  if p.lamports = 0 then .error .InvalidAmount
  else
    match pubkeyFromStr p.from_ with
    | none => .error (.InvalidPubkey p.from_)
    | some fromKey =>
      match pubkeyFromStr p.to_ with
      | none => .error (.InvalidPubkey p.to_)
      | some toKey => .ok (system_transfer fromKey toKey p.lamports)

def send_sol (p : SendSolRequest) : Except ApiError InstructionResponse :=
  (send_sol_core p).map toInstructionResponse

def send_token_core (p : SendTokenRequest) : Except ApiError Instruction :=
  if p.amount = 0 then .error .InvalidAmount
  else
    match pubkeyFromStr p.mint with
    | none => .error (.InvalidPubkey p.mint)
    | some _mint =>
      match pubkeyFromStr p.destination with
      | none => .error (.InvalidPubkey p.destination)
      | some destination =>
        match pubkeyFromStr p.owner with
        | none => .error (.InvalidPubkey p.owner)
        | some owner =>
          match token_transfer_ix splTokenId owner destination owner p.amount with
          | .error e => .error (.ProgramError e)
          | .ok i => .ok i

def send_token (p : SendTokenRequest) : Except ApiError InstructionResponse :=
  (send_token_core p).map toInstructionResponse

/-! ## Byte-bound lemmas -/

theorem natToBytesBEAux_lt (fuel : Nat) :
    ∀ n b, b ∈ natToBytesBEAux fuel n → b < 256 := by
  induction fuel with
  | zero => intro n b hb; simp [natToBytesBEAux] at hb
  | succ f ih =>
    intro n b hb
    rw [natToBytesBEAux] at hb
    by_cases hn : n = 0
    · simp [hn] at hb
    · rw [if_neg hn] at hb
      rcases List.mem_append.mp hb with h1 | h2
      · exact ih (n / 256) b h1
      · simp at h2; omega

theorem natToBytesBE_lt (n b : Nat) (hb : b ∈ natToBytesBE n) : b < 256 :=
  natToBytesBEAux_lt n n b hb

theorem b58Decode_lt (s : String) (l : List Nat) (h : b58Decode s = some l) :
    ∀ b ∈ l, b < 256 := by
  unfold b58Decode at h
  cases hm : s.data.mapM b58DigitOf with
  | none => rw [hm] at h; cases h
  | some digits =>
    rw [hm] at h
    simp only [Option.some.injEq] at h
    intro b hb
    rw [← h] at hb
    rcases List.mem_append.mp hb with h1 | h2
    · have := List.eq_of_mem_replicate h1; omega
    · exact natToBytesBE_lt _ b h2

theorem pubkeyFromStr_lt (s : String) (l : List Nat) (h : pubkeyFromStr s = some l) :
    ∀ b ∈ l, b < 256 := by
  unfold pubkeyFromStr at h
  split at h
  · cases h
  · split at h
    · cases h
    · rename_i bs hd
      split at h
      · cases h; exact b58Decode_lt s _ hd
      · cases h

theorem pubkeyFromStr_len (s : String) (l : List Nat) (h : pubkeyFromStr s = some l) :
    l.length = 32 := by
  unfold pubkeyFromStr at h
  split at h
  · cases h
  · split at h
    · cases h
    · rename_i bs hd
      split at h
      · rename_i h32; cases h; exact h32
      · cases h

theorem u64LE_lt (n : Nat) : ∀ b ∈ u64LE n, b < 256 := by
  intro b hb
  simp [u64LE] at hb
  rcases hb with h | h | h | h | h | h | h | h <;> omega

/-! ## Base64 round trip -/

theorem b64DigitOf_b64Ch : ∀ i, i < 64 → b64DigitOf (b64Ch i) = some i := by decide

theorem b64Ch_ne_pad : ∀ i, i < 64 → b64Ch i ≠ '=' := by decide

theorem b64_round_chunks :
    ∀ (l : List Nat), (∀ b ∈ l, b < 256) → b64DecodeChunks (b64EncodeChunks l) = some l
  | [] => fun _ => rfl
  | [a] => fun h => by
    have ha : a < 256 := h a (by simp)
    have h1 := b64DigitOf_b64Ch (a / 4) (by omega)
    have h2 := b64DigitOf_b64Ch (a % 4 * 16) (by omega)
    have h3 : a % 4 * 16 % 16 = 0 := by omega
    simp only [b64EncodeChunks, b64DecodeChunks, h1, h2]
    simp [h3]
    omega
  | [a, b] => fun h => by
    have ha : a < 256 := h a (by simp)
    have hb : b < 256 := h b (by simp)
    have h1 := b64DigitOf_b64Ch (a / 4) (by omega)
    have h2 := b64DigitOf_b64Ch (a % 4 * 16 + b / 16) (by omega)
    have h3 := b64DigitOf_b64Ch (b % 16 * 4) (by omega)
    have hne : b64Ch (b % 16 * 4) ≠ '=' := b64Ch_ne_pad _ (by omega)
    have h4 : b % 16 * 4 % 4 = 0 := by omega
    simp only [b64EncodeChunks, b64DecodeChunks, h1, h2, h3, if_neg hne]
    simp [h4]
    constructor <;> omega
  | a :: b :: c :: rest => fun h => by
    have ha : a < 256 := h a (by simp)
    have hb : b < 256 := h b (by simp)
    have hc : c < 256 := h c (by simp)
    have ih := b64_round_chunks rest (fun x hx => h x (by simp [hx]))
    have h1 := b64DigitOf_b64Ch (a / 4) (by omega)
    have h2 := b64DigitOf_b64Ch (a % 4 * 16 + b / 16) (by omega)
    have h3 := b64DigitOf_b64Ch (b % 16 * 4 + c / 64) (by omega)
    have h4 := b64DigitOf_b64Ch (c % 64) (by omega)
    have hne3 : b64Ch (b % 16 * 4 + c / 64) ≠ '=' := b64Ch_ne_pad _ (by omega)
    have hne4 : b64Ch (c % 64) ≠ '=' := b64Ch_ne_pad _ (by omega)
    simp only [b64EncodeChunks, b64DecodeChunks, h1, h2, h3, h4, if_neg hne3, if_neg hne4, ih]
    simp only [Option.some.injEq, List.cons.injEq]
    refine ⟨by omega, by omega, by omega, trivial⟩

theorem b64_round (l : List Nat) (h : ∀ b ∈ l, b < 256) :
    b64DecodeStr (b64Encode l) = some l :=
  b64_round_chunks l h

@[simp] theorem except_map_error {e a b : Type} (f : a → b) (err : e) :
    Except.map f (.error err : Except e a) = .error err := rfl

@[simp] theorem except_map_ok {e a b : Type} (f : a → b) (x : a) :
    Except.map f (.ok x : Except e a) = (.ok (f x) : Except e b) := rfl

/-! ## Claim theorems -/

/-- Concrete crypto instance used by witnesses: every 32-byte string is a
valid point, signing returns 64 zero bytes, verification always fails. -/
def ops0 : CryptoOps :=
  ⟨fun _ => true, fun _ _ => List.replicate 64 0, fun _ _ _ => false⟩

/-- C1: for well-formed base58 identifiers `a` and `b`, `send_sol` with
`lamports = 0` fails with `InvalidAmount` and `send_token` with
`amount = 0` fails with `InvalidAmount`; with any `lamports >= 1`,
`send_sol` succeeds and the built instruction has exactly the two accounts
`[from: signer+writable, to: writable, not signer]`. -/
theorem c1_amount_gate_and_native_accounts
    (a b : String) (ka kb : List Nat)
    (ha : pubkeyFromStr a = some ka) (hb : pubkeyFromStr b = some kb) :
    send_sol ⟨a, b, 0⟩ = .error .InvalidAmount ∧
    (∀ d m o : String, send_token ⟨d, m, o, 0⟩ = .error .InvalidAmount) ∧
    (∀ l : Nat, 1 ≤ l →
      send_sol_core ⟨a, b, l⟩ =
        .ok ⟨systemProgramId, [⟨ka, true, true⟩, ⟨kb, false, true⟩],
             [2, 0, 0, 0] ++ u64LE l⟩ ∧
      send_sol ⟨a, b, l⟩ =
        .ok (toInstructionResponse
          ⟨systemProgramId, [⟨ka, true, true⟩, ⟨kb, false, true⟩],
           [2, 0, 0, 0] ++ u64LE l⟩)) := by
  refine ⟨rfl, fun d m o => rfl, fun l hl => ?_⟩
  have hne : ¬(l = 0) := by omega
  have hcore : send_sol_core ⟨a, b, l⟩ =
      .ok ⟨systemProgramId, [⟨ka, true, true⟩, ⟨kb, false, true⟩],
           [2, 0, 0, 0] ++ u64LE l⟩ := by
    simp only [send_sol_core, if_neg hne, ha, hb, system_transfer]
  exact ⟨hcore, by simp [send_sol, hcore, Except.map]⟩

theorem c1_witness :
    send_sol ⟨"11111111111111111111111111111111", "11111111111111111111111111111111", 0⟩ =
      .error .InvalidAmount ∧
    send_sol_core ⟨"11111111111111111111111111111111", "11111111111111111111111111111111", 1⟩ =
      .ok ⟨systemProgramId,
        [⟨List.replicate 32 0, true, true⟩, ⟨List.replicate 32 0, false, true⟩],
        [2, 0, 0, 0] ++ u64LE 1⟩ := by
  have h := c1_amount_gate_and_native_accounts
    ("11111111111111111111111111111111") ("11111111111111111111111111111111")
    (List.replicate 32 0) (List.replicate 32 0) (by decide) (by decide)
  exact ⟨h.1, (h.2.2 1 (by omega)).1⟩

/-- C6: `mint_token` does not reject a zero amount: with well-formed
identifiers and `amount = 0` it succeeds and builds the mint-to
instruction, while the transfer-shaped operations reject zero with
`InvalidAmount`. -/
theorem c6_mint_zero_succeeds
    (m d a : String) (km kd ka : List Nat)
    (hm : pubkeyFromStr m = some km) (hd : pubkeyFromStr d = some kd)
    (ha : pubkeyFromStr a = some ka) :
    mint_token_core ⟨m, d, a, 0⟩ =
      .ok ⟨splTokenId, [⟨km, false, true⟩, ⟨kd, false, true⟩, ⟨ka, true, false⟩],
           [7] ++ u64LE 0⟩ ∧
    mint_token ⟨m, d, a, 0⟩ =
      .ok (toInstructionResponse
        ⟨splTokenId, [⟨km, false, true⟩, ⟨kd, false, true⟩, ⟨ka, true, false⟩],
         [7] ++ u64LE 0⟩) ∧
    send_sol ⟨m, d, 0⟩ = .error .InvalidAmount ∧
    send_token ⟨d, m, a, 0⟩ = .error .InvalidAmount := by
  have hcore : mint_token_core ⟨m, d, a, 0⟩ =
      .ok ⟨splTokenId, [⟨km, false, true⟩, ⟨kd, false, true⟩, ⟨ka, true, false⟩],
           [7] ++ u64LE 0⟩ := by
    simp [mint_token_core, hm, hd, ha, token_mint_to]
  exact ⟨hcore, by simp [mint_token, hcore, Except.map], rfl, rfl⟩

theorem c6_witness :
    mint_token_core ⟨"11111111111111111111111111111111", "11111111111111111111111111111111",
        "11111111111111111111111111111111", 0⟩ =
      .ok ⟨splTokenId,
        [⟨List.replicate 32 0, false, true⟩, ⟨List.replicate 32 0, false, true⟩,
         ⟨List.replicate 32 0, true, false⟩], [7] ++ u64LE 0⟩ :=
  (c6_mint_zero_succeeds ("11111111111111111111111111111111")
    ("11111111111111111111111111111111") ("11111111111111111111111111111111")
    (List.replicate 32 0) (List.replicate 32 0) (List.replicate 32 0)
    (by decide) (by decide) (by decide)).1

/-- C8: in `send_sol` and `send_token` the zero-amount check precedes
identifier decoding: a zero amount yields `InvalidAmount` for every
identifier field, well-formed or not, so zero amount plus a malformed
identifier yields `InvalidAmount`, not `InvalidPubkey`. -/
theorem c8_zero_before_decoding :
    (∀ f t : String, send_sol ⟨f, t, 0⟩ = .error .InvalidAmount) ∧
    (∀ d m o : String, send_token ⟨d, m, o, 0⟩ = .error .InvalidAmount) ∧
    pubkeyFromStr ("not-base58!!") = none ∧
    send_sol ⟨"not-base58!!", "not-base58!!", 0⟩ = .error .InvalidAmount ∧
    send_token ⟨"not-base58!!", "not-base58!!", "not-base58!!", 0⟩ = .error .InvalidAmount :=
  ⟨fun _ _ => rfl, fun _ _ _ => rfl, by decide, rfl, rfl⟩

/-- C2 counterexample: a request whose identifiers all fail base58
decoding but whose amount is zero is rejected by `send_sol` with
`InvalidAmount`, not `InvalidPubkey`, so the claim as stated fails. -/
theorem c2_counterexample :
    pubkeyFromStr ("not-base58!!") = none ∧
    send_sol ⟨"not-base58!!", "not-base58!!", 0⟩ = .error .InvalidAmount ∧
    send_sol ⟨"not-base58!!", "not-base58!!", 0⟩ ≠ .error (.InvalidPubkey ("not-base58!!")) ∧
    send_token ⟨"not-base58!!", "not-base58!!", "not-base58!!", 0⟩ = .error .InvalidAmount ∧
    send_token ⟨"not-base58!!", "not-base58!!", "not-base58!!", 0⟩ ≠
      .error (.InvalidPubkey ("not-base58!!")) := by
  refine ⟨by decide, rfl, by decide, rfl, by decide⟩

/-- C2 (amended): for each of the four instruction operations, whenever an
identifier field is malformed - and, for the two transfer-shaped
operations, the amount is nonzero - the handler fails with `InvalidPubkey`
carrying the original text of a malformed identifier field, and no
instruction response is returned. -/
theorem c2_invalid_pubkey_fail_fast :
    (∀ p : CreateTokenRequest,
      pubkeyFromStr p.mint_authority = none ∨ pubkeyFromStr p.mint = none →
      ∃ t, pubkeyFromStr t = none ∧ (t = p.mint_authority ∨ t = p.mint) ∧
        create_token p = .error (.InvalidPubkey t)) ∧
    (∀ p : MintTokenRequest,
      pubkeyFromStr p.mint = none ∨ pubkeyFromStr p.destination = none ∨
        pubkeyFromStr p.authority = none →
      ∃ t, pubkeyFromStr t = none ∧ (t = p.mint ∨ t = p.destination ∨ t = p.authority) ∧
        mint_token p = .error (.InvalidPubkey t)) ∧
    (∀ p : SendSolRequest, p.lamports ≠ 0 →
      pubkeyFromStr p.from_ = none ∨ pubkeyFromStr p.to_ = none →
      ∃ t, pubkeyFromStr t = none ∧ (t = p.from_ ∨ t = p.to_) ∧
        send_sol p = .error (.InvalidPubkey t)) ∧
    (∀ p : SendTokenRequest, p.amount ≠ 0 →
      pubkeyFromStr p.mint = none ∨ pubkeyFromStr p.destination = none ∨
        pubkeyFromStr p.owner = none →
      ∃ t, pubkeyFromStr t = none ∧ (t = p.mint ∨ t = p.destination ∨ t = p.owner) ∧
        send_token p = .error (.InvalidPubkey t)) := by
  refine ⟨?_, ?_, ?_, ?_⟩
  · intro p hp
    cases h1 : pubkeyFromStr p.mint_authority with
    | none =>
      exact ⟨p.mint_authority, h1, Or.inl rfl, by simp [create_token, create_token_core, h1]⟩
    | some k1 =>
      cases h2 : pubkeyFromStr p.mint with
      | none =>
        exact ⟨p.mint, h2, Or.inr rfl, by simp [create_token, create_token_core, h1, h2]⟩
      | some k2 =>
        rcases hp with h | h
        · rw [h1] at h; cases h
        · rw [h2] at h; cases h
  · intro p hp
    cases h1 : pubkeyFromStr p.mint with
    | none => exact ⟨p.mint, h1, Or.inl rfl, by simp [mint_token, mint_token_core, h1]⟩
    | some k1 =>
      cases h2 : pubkeyFromStr p.destination with
      | none =>
        exact ⟨p.destination, h2, Or.inr (Or.inl rfl),
          by simp [mint_token, mint_token_core, h1, h2]⟩
      | some k2 =>
        cases h3 : pubkeyFromStr p.authority with
        | none =>
          exact ⟨p.authority, h3, Or.inr (Or.inr rfl),
            by simp [mint_token, mint_token_core, h1, h2, h3]⟩
        | some k3 =>
          rcases hp with h | h | h
          · rw [h1] at h; cases h
          · rw [h2] at h; cases h
          · rw [h3] at h; cases h
  · intro p hl hp
    cases h1 : pubkeyFromStr p.from_ with
    | none => exact ⟨p.from_, h1, Or.inl rfl, by simp [send_sol, send_sol_core, hl, h1]⟩
    | some k1 =>
      cases h2 : pubkeyFromStr p.to_ with
      | none => exact ⟨p.to_, h2, Or.inr rfl, by simp [send_sol, send_sol_core, hl, h1, h2]⟩
      | some k2 =>
        rcases hp with h | h
        · rw [h1] at h; cases h
        · rw [h2] at h; cases h
  · intro p hl hp
    cases h1 : pubkeyFromStr p.mint with
    | none => exact ⟨p.mint, h1, Or.inl rfl, by simp [send_token, send_token_core, hl, h1]⟩
    | some k1 =>
      cases h2 : pubkeyFromStr p.destination with
      | none =>
        exact ⟨p.destination, h2, Or.inr (Or.inl rfl),
          by simp [send_token, send_token_core, hl, h1, h2]⟩
      | some k2 =>
        cases h3 : pubkeyFromStr p.owner with
        | none =>
          exact ⟨p.owner, h3, Or.inr (Or.inr rfl),
            by simp [send_token, send_token_core, hl, h1, h2, h3]⟩
        | some k3 =>
          rcases hp with h | h | h
          · rw [h1] at h; cases h
          · rw [h2] at h; cases h
          · rw [h3] at h; cases h

theorem c2_witness :
    (∃ t, pubkeyFromStr t = none ∧
      (t = ("11111111111111111111111111111111") ∨ t = ("not-base58!!")) ∧
      create_token ⟨"11111111111111111111111111111111", "not-base58!!", 6⟩ =
        .error (.InvalidPubkey t)) ∧
    (∃ t, pubkeyFromStr t = none ∧
      (t = ("not-base58!!") ∨ t = ("11111111111111111111111111111111")) ∧
      send_sol ⟨"not-base58!!", "11111111111111111111111111111111", 5⟩ =
        .error (.InvalidPubkey t)) :=
  ⟨c2_invalid_pubkey_fail_fast.1 ⟨"11111111111111111111111111111111", "not-base58!!", 6⟩
    (Or.inr (by decide)),
   c2_invalid_pubkey_fail_fast.2.2.1 ⟨"not-base58!!", "11111111111111111111111111111111", 5⟩
    (by decide) (Or.inl (by decide))⟩

/-- C4 counterexample: when both fields are empty, `sign_message` fails
with `MissingField("message")`, so it does not fail with
`MissingField("secret")` even though the secret field is empty. -/
theorem c4_counterexample :
    sign_message ops0 ⟨"", ""⟩ = .error (.MissingField ("message")) ∧
    sign_message ops0 ⟨"", ""⟩ ≠ .error (.MissingField ("secret")) := by
  refine ⟨rfl, by decide⟩

/-- C4 (amended): `sign_message` fails with `MissingField("message")`
whenever the message is empty, and with `MissingField("secret")` whenever
the secret is empty and the message is not; both checks happen before any
base58 decoding of the secret, and with both fields non-empty no
`MissingField` error can occur. -/
theorem c4_missing_field_checks (ops : CryptoOps) (p : SignMessageRequest) :
    (p.message = "" → sign_message ops p = .error (.MissingField ("message"))) ∧
    (p.message ≠ "" → p.secret = "" → sign_message ops p = .error (.MissingField ("secret"))) ∧
    (p.message ≠ "" → p.secret ≠ "" →
      ∀ s, sign_message ops p ≠ .error (.MissingField s)) := by
  refine ⟨fun h => by simp [sign_message, h], fun h1 h2 => by simp [sign_message, h1, h2], ?_⟩
  intro h1 h2 s
  simp only [sign_message, if_neg h1, if_neg h2]
  cases hb2 : b58Decode p.secret with
  | none => simp
  | some bs =>
    cases hk : keypairFromBytes ops.validPoint bs with
    | none => simp [hk]
    | some kp => simp [hk]

theorem c4_witness :
    sign_message ops0 ⟨"", "s"⟩ = .error (.MissingField ("message")) ∧
    sign_message ops0 ⟨"m", ""⟩ = .error (.MissingField ("secret")) ∧
    sign_message ops0 ⟨"m", "2"⟩ ≠ .error (.MissingField ("secret")) :=
  ⟨(c4_missing_field_checks ops0 ⟨"", "s"⟩).1 rfl,
   (c4_missing_field_checks ops0 ⟨"m", ""⟩).2.1 (by decide) rfl,
   (c4_missing_field_checks ops0 ⟨"m", "2"⟩).2.2 (by decide) (by decide) ("secret")⟩

/-- C5 counterexample: when the mint identifier coincides with the owner
(and destination) identifier, the decoded mint key does appear in the
account list of the built token-transfer instruction, so the claim as
stated fails. -/
theorem c5_counterexample :
    pubkeyFromStr ("11111111111111111111111111111111") = some (List.replicate 32 0) ∧
    send_token_core ⟨"11111111111111111111111111111111", "11111111111111111111111111111111",
        "11111111111111111111111111111111", 1⟩ =
      .ok ⟨splTokenId,
        [⟨List.replicate 32 0, false, true⟩, ⟨List.replicate 32 0, false, true⟩,
         ⟨List.replicate 32 0, true, false⟩], [3] ++ u64LE 1⟩ ∧
    List.replicate 32 0 ∈
      ([⟨List.replicate 32 0, false, true⟩, ⟨List.replicate 32 0, false, true⟩,
        ⟨List.replicate 32 0, true, false⟩] : List AccountMeta).map AccountMeta.pubkey := by
  refine ⟨by decide, by decide, by decide⟩

/-- C5 (amended): for a token transfer with well-formed identifiers and
nonzero amount, the source account of the built instruction is the owner
key (source = authority = owner), and the decoded mint key - though
decoded and validated - is not placed in the account list, so it appears
there only if it coincides with the owner or destination key. -/
theorem c5_source_is_owner_mint_unused (p : SendTokenRequest) (mk dk ow : List Nat)
    (hamt : p.amount ≠ 0)
    (hm : pubkeyFromStr p.mint = some mk)
    (hd : pubkeyFromStr p.destination = some dk)
    (ho : pubkeyFromStr p.owner = some ow) :
    send_token_core p =
      .ok ⟨splTokenId, [⟨ow, false, true⟩, ⟨dk, false, true⟩, ⟨ow, true, false⟩],
           [3] ++ u64LE p.amount⟩ ∧
    (mk ≠ ow → mk ≠ dk →
      mk ∉ ([⟨ow, false, true⟩, ⟨dk, false, true⟩, ⟨ow, true, false⟩] :
        List AccountMeta).map AccountMeta.pubkey) := by
  constructor
  · simp [send_token_core, hamt, hm, hd, ho, token_transfer_ix]
  · intro hno hnd hmem
    simp [AccountMeta.pubkey] at hmem
    rcases hmem with h | h | h
    · exact hno h
    · exact hnd h
    · exact hno h

theorem c5_witness :
    send_token_core ⟨"11111111111111111111111111111112", "11111111111111111111111111111111",
        "11111111111111111111111111111113", 3⟩ =
      .ok ⟨splTokenId,
        [⟨List.replicate 31 0 ++ [2], false, true⟩, ⟨List.replicate 31 0 ++ [1], false, true⟩,
         ⟨List.replicate 31 0 ++ [2], true, false⟩], [3] ++ u64LE 3⟩ ∧
    List.replicate 32 0 ∉
      ([⟨List.replicate 31 0 ++ [2], false, true⟩, ⟨List.replicate 31 0 ++ [1], false, true⟩,
        ⟨List.replicate 31 0 ++ [2], true, false⟩] : List AccountMeta).map AccountMeta.pubkey := by
  have h := c5_source_is_owner_mint_unused
    ⟨"11111111111111111111111111111112", "11111111111111111111111111111111",
     "11111111111111111111111111111113", 3⟩
    (List.replicate 32 0) (List.replicate 31 0 ++ [1]) (List.replicate 31 0 ++ [2])
    (by decide) (by decide) (by decide) (by decide)
  exact ⟨h.1, h.2 (by decide) (by decide)⟩

/-- C3: for a syntactically well-formed verification request (all three
fields non-empty, pubkey decoding to 32 bytes, signature decoding via
base64 to 64 bytes), `verify_message` never errors: it returns a success
whose `valid` field is exactly the Ed25519 check of the signature against
the message and key, so a mismatch is a normal `false`, not an error. -/
theorem c3_verify_never_errors (ops : CryptoOps) (p : VerifyMessageRequest)
    (pk sigBytes : List Nat)
    (hm : p.message ≠ "") (hs : p.signature ≠ "") (hk : p.pubkey ≠ "")
    (hpk : pubkeyFromStr p.pubkey = some pk)
    (hsig : b64DecodeStr p.signature = some sigBytes)
    (hlen : sigBytes.length = 64) :
    verify_message ops p = .ok ⟨ops.verify pk p.message sigBytes, p.message, p.pubkey⟩ := by
  simp only [verify_message, if_neg hm, if_neg hs, if_neg hk, hpk, hsig, if_pos hlen]

theorem c3_witness :
    verify_message ops0
      ⟨"m", b64Encode (List.replicate 64 0), "11111111111111111111111111111111"⟩ =
      .ok ⟨ops0.verify (List.replicate 32 0) ("m") (List.replicate 64 0), "m",
           "11111111111111111111111111111111"⟩ :=
  c3_verify_never_errors ops0
    ⟨"m", b64Encode (List.replicate 64 0), "11111111111111111111111111111111"⟩
    (List.replicate 32 0) (List.replicate 64 0)
    (by decide) (by decide) (by decide) (by decide) (by decide) (by decide)

/-- C9: with non-empty fields, a secret that is not valid base58 fails
with `InvalidSecretKey("Invalid base58 encoding")`; a secret that decodes
but is rejected by `Keypair::from_bytes` (in particular any byte string
whose length is not 64, such as a bare 32-byte seed) fails with
`InvalidSecretKey("Invalid keypair bytes")`. -/
theorem c9_secret_key_validation (ops : CryptoOps) (p : SignMessageRequest)
    (hm : p.message ≠ "") (hs : p.secret ≠ "") :
    (b58Decode p.secret = none →
      sign_message ops p = .error (.InvalidSecretKey ("Invalid base58 encoding"))) ∧
    (∀ bs, b58Decode p.secret = some bs → keypairFromBytes ops.validPoint bs = none →
      sign_message ops p = .error (.InvalidSecretKey ("Invalid keypair bytes"))) ∧
    (∀ vp : List Nat → Bool, ∀ bs : List Nat, bs.length ≠ 64 → keypairFromBytes vp bs = none) := by
  refine ⟨?_, ?_, ?_⟩
  · intro h
    simp only [sign_message, if_neg hm, if_neg hs, h]
  · intro bs hbs hkp
    simp only [sign_message, if_neg hm, if_neg hs, hbs, hkp]
  · intro vp bs hlen
    simp [keypairFromBytes, hlen]

theorem c9_witness :
    sign_message ops0 ⟨"m", "0"⟩ = .error (.InvalidSecretKey ("Invalid base58 encoding")) ∧
    sign_message ops0 ⟨"m", "2"⟩ = .error (.InvalidSecretKey ("Invalid keypair bytes")) ∧
    keypairFromBytes ops0.validPoint (List.replicate 32 0) = none :=
  ⟨(c9_secret_key_validation ops0 ⟨"m", "0"⟩ (by decide) (by decide)).1 (by decide),
   (c9_secret_key_validation ops0 ⟨"m", "2"⟩ (by decide) (by decide)).2.1 [1] (by decide)
     (by decide),
   (c9_secret_key_validation ops0 ⟨"m", "2"⟩ (by decide) (by decide)).2.2 ops0.validPoint
     (List.replicate 32 0) (by decide)⟩

/-- C10: every success result of `verify_message` echoes the request's
message and pubkey strings byte-for-byte (the pubkey is the original
request text), and the `valid` field is exactly the Ed25519 check of the
decoded key and signature. -/
theorem c10_verify_echoes_inputs (ops : CryptoOps) (p : VerifyMessageRequest)
    (r : VerifyMessageResponse) (h : verify_message ops p = .ok r) :
    r.message = p.message ∧ r.pubkey = p.pubkey ∧
    ∃ pk sigBytes, pubkeyFromStr p.pubkey = some pk ∧
      b64DecodeStr p.signature = some sigBytes ∧
      r.valid = ops.verify pk p.message sigBytes := by
  unfold verify_message at h
  split at h
  · cases h
  · split at h
    · cases h
    · split at h
      · cases h
      · split at h
        · cases h
        · rename_i pk hpk
          split at h
          · cases h
          · rename_i sigBytes hsig
            split at h
            · cases h
              exact ⟨rfl, rfl, pk, sigBytes, hpk, hsig, rfl⟩
            · cases h

theorem c10_witness :
    (⟨false, "m", "11111111111111111111111111111111"⟩ : VerifyMessageResponse).message =
      ("m") ∧
    (⟨false, "m", "11111111111111111111111111111111"⟩ : VerifyMessageResponse).pubkey =
      ("11111111111111111111111111111111") ∧
    ∃ pk sigBytes, pubkeyFromStr ("11111111111111111111111111111111") = some pk ∧
      b64DecodeStr (b64Encode (List.replicate 64 0)) = some sigBytes ∧
      (⟨false, "m", "11111111111111111111111111111111"⟩ : VerifyMessageResponse).valid =
        ops0.verify pk ("m") sigBytes := by
  have h := c10_verify_echoes_inputs ops0
    ⟨"m", b64Encode (List.replicate 64 0), "11111111111111111111111111111111"⟩
    ⟨false, "m", "11111111111111111111111111111111"⟩ (by decide)
  exact h

/-! ## Instruction data byte bounds, per operation -/

theorem send_sol_core_data_lt (p : SendSolRequest) (i : Instruction)
    (h : send_sol_core p = .ok i) : ∀ b ∈ i.data, b < 256 := by
  unfold send_sol_core at h
  split at h
  · cases h
  · split at h
    · cases h
    · split at h
      · cases h
      · cases h
        intro b hb
        simp [system_transfer, u64LE] at hb
        rcases hb with h | h | h | h | h | h | h | h | h | h | h | h <;> omega

theorem send_token_core_data_lt (p : SendTokenRequest) (i : Instruction)
    (h : send_token_core p = .ok i) : ∀ b ∈ i.data, b < 256 := by
  unfold send_token_core at h
  split at h
  · cases h
  · split at h
    · cases h
    · split at h
      · cases h
      · split at h
        · cases h
        · split at h
          · cases h
          · rename_i heq
            simp [token_transfer_ix] at heq
            cases h
            rw [← heq]
            intro b hb
            simp [u64LE] at hb
            rcases hb with h | h | h | h | h | h | h | h | h <;> omega

theorem mint_token_core_data_lt (p : MintTokenRequest) (i : Instruction)
    (h : mint_token_core p = .ok i) : ∀ b ∈ i.data, b < 256 := by
  unfold mint_token_core at h
  split at h
  · cases h
  · split at h
    · cases h
    · split at h
      · cases h
      · split at h
        · cases h
        · rename_i heq
          simp [token_mint_to] at heq
          cases h
          rw [← heq]
          intro b hb
          simp [u64LE] at hb
          rcases hb with h | h | h | h | h | h | h | h | h <;> omega

theorem create_token_core_data_lt (p : CreateTokenRequest) (i : Instruction)
    (hdec : p.decimals < 256) (h : create_token_core p = .ok i) :
    ∀ b ∈ i.data, b < 256 := by
  unfold create_token_core at h
  split at h
  · cases h
  · rename_i ma hma
    split at h
    · cases h
    · split at h
      · cases h
      · rename_i heq
        simp [token_init_mint] at heq
        cases h
        rw [← heq]
        intro b hb
        simp at hb
        rcases hb with h | h | h | h
        · omega
        · omega
        · exact pubkeyFromStr_lt _ _ hma b h
        · omega

/-- C7: transport encodings are fixed and asymmetric: `sign_message`
returns the signature in standard base64 (decoding back to the signing
library's 64-byte output) and the public key in base58; the generated
keypair is reported as base58 pubkey and base58 secret; and every
instruction handler returns `instruction_data` as the standard base64
encoding of the built instruction's data bytes (decoding back to them). -/
theorem c7_transport_encodings :
    (∀ (ops : CryptoOps) (p : SignMessageRequest) (r : SignMessageResponse),
      (∀ kp m, (ops.sign kp m).length = 64 ∧ ∀ b ∈ ops.sign kp m, b < 256) →
      sign_message ops p = .ok r →
      ∃ kp, b58Decode p.secret = some kp ∧
        r.signature = b64Encode (ops.sign kp p.message) ∧
        r.public_key = b58Encode (kp.drop 32) ∧
        b64DecodeStr r.signature = some (ops.sign kp p.message) ∧
        (ops.sign kp p.message).length = 64) ∧
    (∀ kp : List Nat, (generate_keypair kp).pubkey = b58Encode (kp.drop 32) ∧
      (generate_keypair kp).secret = b58Encode kp) ∧
    (∀ (p : SendSolRequest) (i : Instruction), send_sol_core p = .ok i →
      send_sol p = .ok (toInstructionResponse i) ∧
      (toInstructionResponse i).instruction_data = b64Encode i.data ∧
      b64DecodeStr (toInstructionResponse i).instruction_data = some i.data) ∧
    (∀ (p : SendTokenRequest) (i : Instruction), send_token_core p = .ok i →
      send_token p = .ok (toInstructionResponse i) ∧
      (toInstructionResponse i).instruction_data = b64Encode i.data ∧
      b64DecodeStr (toInstructionResponse i).instruction_data = some i.data) ∧
    (∀ (p : MintTokenRequest) (i : Instruction), mint_token_core p = .ok i →
      mint_token p = .ok (toInstructionResponse i) ∧
      (toInstructionResponse i).instruction_data = b64Encode i.data ∧
      b64DecodeStr (toInstructionResponse i).instruction_data = some i.data) ∧
    (∀ (p : CreateTokenRequest) (i : Instruction), p.decimals < 256 →
      create_token_core p = .ok i →
      create_token p = .ok (toInstructionResponse i) ∧
      (toInstructionResponse i).instruction_data = b64Encode i.data ∧
      b64DecodeStr (toInstructionResponse i).instruction_data = some i.data) := by
  refine ⟨?_, ?_, ?_, ?_, ?_, ?_⟩
  · intro ops p r hs hok
    unfold sign_message at hok
    split at hok
    · cases hok
    · split at hok
      · cases hok
      · split at hok
        · cases hok
        · rename_i sb hsb
          split at hok
          · cases hok
          · rename_i kp hkp
            have hkpsb : kp = sb := by
              unfold keypairFromBytes at hkp
              split at hkp
              · cases hkp; rfl
              · cases hkp
            cases hok
            subst hkpsb
            exact ⟨kp, hsb, rfl, rfl, b64_round _ (hs kp p.message).2, (hs kp p.message).1⟩
  · intro kp
    exact ⟨rfl, rfl⟩
  · intro p i h
    exact ⟨by simp [send_sol, h], rfl, b64_round i.data (send_sol_core_data_lt p i h)⟩
  · intro p i h
    exact ⟨by simp [send_token, h], rfl, b64_round i.data (send_token_core_data_lt p i h)⟩
  · intro p i h
    exact ⟨by simp [mint_token, h], rfl, b64_round i.data (mint_token_core_data_lt p i h)⟩
  · intro p i hdec h
    exact ⟨by simp [create_token, h], rfl,
      b64_round i.data (create_token_core_data_lt p i hdec h)⟩

theorem c7_witness :
    (send_sol ⟨"11111111111111111111111111111111", "11111111111111111111111111111111", 1⟩ =
      .ok (toInstructionResponse ⟨systemProgramId,
        [⟨List.replicate 32 0, true, true⟩, ⟨List.replicate 32 0, false, true⟩],
        [2, 0, 0, 0] ++ u64LE 1⟩) ∧
     (toInstructionResponse ⟨systemProgramId,
        [⟨List.replicate 32 0, true, true⟩, ⟨List.replicate 32 0, false, true⟩],
        [2, 0, 0, 0] ++ u64LE 1⟩).instruction_data =
       b64Encode ([2, 0, 0, 0] ++ u64LE 1) ∧
     b64DecodeStr (toInstructionResponse ⟨systemProgramId,
        [⟨List.replicate 32 0, true, true⟩, ⟨List.replicate 32 0, false, true⟩],
        [2, 0, 0, 0] ++ u64LE 1⟩).instruction_data = some ([2, 0, 0, 0] ++ u64LE 1)) ∧
    (generate_keypair (List.replicate 64 7)).pubkey =
      b58Encode ((List.replicate 64 7).drop 32) ∧
    (generate_keypair (List.replicate 64 7)).secret = b58Encode (List.replicate 64 7) :=
  ⟨c7_transport_encodings.2.2.1
    ⟨"11111111111111111111111111111111", "11111111111111111111111111111111", 1⟩
    ⟨systemProgramId,
      [⟨List.replicate 32 0, true, true⟩, ⟨List.replicate 32 0, false, true⟩],
      [2, 0, 0, 0] ++ u64LE 1⟩ (by decide),
   (c7_transport_encodings.2.1 (List.replicate 64 7)).1,
   (c7_transport_encodings.2.1 (List.replicate 64 7)).2⟩
